import Mathlib

/-!
Verification of the tiling-contractor quotation/invoice application.

This file gives a shallow embedding, over exact rational arithmetic, of the
cost-aggregation and record-lifecycle logic of the repository:

* `getSummaryData`          — src/services/exportService.ts (lines 31-62)
* `getInvoiceTotal`         — invoice-list total, src/unnamed/part_003 (lines 207-229)
* `invoiceModalGrandTotal`  — invoice-modal totals, src/unnamed/part_003 (lines 37-60)
* the JavaScript value/coercion semantics of the `Number(x)` casts used by
  `getSummaryData` (`JSVal`, `jsToNumber`, `getSummaryDataJS`)
* the application state handlers for quotation/invoice lifecycle,
  src/components/AddMaterialModal.tsx (both App variants concatenated there)
* `processedInvoices`       — derived Overdue display status, src/unnamed/part_003
  (lines 245-254)

Monetary amounts are modelled as `ℚ`: the source performs IEEE double
arithmetic with no rounding; the properties and reference scenarios in the
spec are stated in exact arithmetic and are checked here in `ℚ`.
-/

namespace TilingApp

/-- Tile line item (src/types.ts `Tile`); only the fields entering the
cost computation are carried (category, tileType and size are free text
that no total reads). -/
structure Tile where
  cartons : ℚ
  sqm : ℚ
  unitPrice : ℚ
  deriving DecidableEq, Repr

/-- Material line item (src/types.ts `Material`); `item` and `unit` are
display-only free text and are omitted. -/
structure Material where
  quantity : ℚ
  unitPrice : ℚ
  deriving DecidableEq, Repr

/-- Discount kind of an invoice (src/types.ts: `'none' | 'percentage' | 'amount'`). -/
inductive DiscountType where
  | none
  | percentage
  | amount
  deriving DecidableEq, Repr

/-- The discount fields carried by an invoice record. -/
structure DiscountSpec where
  discountType : DiscountType
  discountValue : ℚ
  deriving DecidableEq, Repr

/-- The slice of a `QuotationData | InvoiceData` record read by
`getSummaryData`.  `discountSpec = Option.none` models a quotation, for which
`'discountType' in data` is false; `Option.some` models an invoice record. -/
structure SummaryInput where
  tiles : List Tile
  materials : List Material
  workmanshipRate : ℚ
  maintenance : ℚ
  profitPercentage : Option ℚ
  discountSpec : Option DiscountSpec
  deriving DecidableEq, Repr

/-- The slice of `Settings` (src/types.ts) read by the aggregators. -/
structure CalcSettings where
  showMaintenance : Bool
  taxPercentage : ℚ
  showTax : Bool
  deriving DecidableEq, Repr

/-- `totalSqm` of exportService.getSummaryData: `(tiles || []).reduce((acc, tile) => acc + Number(tile.sqm), 0)`. -/
def totalSqm (data : SummaryInput) : ℚ :=
  data.tiles.foldl (fun acc tile => acc + tile.sqm) 0

/-- `totalTileCost`: `(tiles || []).reduce((acc, tile) => acc + (Number(tile.cartons) * Number(tile.unitPrice)), 0)`. -/
def totalTileCost (data : SummaryInput) : ℚ :=
  data.tiles.foldl (fun acc tile => acc + tile.cartons * tile.unitPrice) 0

/-- `totalMaterialCost`: `(materials || []).reduce((acc, mat) => acc + (Number(mat.quantity) * Number(mat.unitPrice)), 0)`. -/
def totalMaterialCost (data : SummaryInput) : ℚ :=
  data.materials.foldl (fun acc mat => acc + mat.quantity * mat.unitPrice) 0

/-- `workmanshipCost = totalSqm * Number(workmanshipRate)`. -/
def workmanshipCost (data : SummaryInput) : ℚ :=
  totalSqm data * data.workmanshipRate

/-- `workmanshipAndMaintenance = workmanshipCost + (showMaintenance ? Number(maintenance) : 0)`. -/
def workmanshipAndMaintenance (data : SummaryInput) (settings : CalcSettings) : ℚ :=
  workmanshipCost data + (if settings.showMaintenance then data.maintenance else 0)

/-- `preProfitTotal = totalTileCost + totalMaterialCost + workmanshipAndMaintenance`. -/
def preProfitTotal (data : SummaryInput) (settings : CalcSettings) : ℚ :=
  totalTileCost data + totalMaterialCost data + workmanshipAndMaintenance data settings

/-- `profitAmount = profitPercentage ? preProfitTotal * (Number(profitPercentage) / 100) : 0`.
JavaScript truthiness: both `null` and `0` take the `: 0` branch. -/
def profitAmount (data : SummaryInput) (settings : CalcSettings) : ℚ :=
  match data.profitPercentage with
  | Option.none => 0
  | Option.some p => if p = 0 then 0 else preProfitTotal data settings * (p / 100)

/-- `subtotal = preProfitTotal + profitAmount`. -/
def subtotal (data : SummaryInput) (settings : CalcSettings) : ℚ :=
  preProfitTotal data settings + profitAmount data settings

/-- `discountAmount`: zero unless `'discountType' in data && data.discountType !== 'none'`;
`percentage` multiplies the subtotal by `Number(discountValue)/100`, otherwise (the
`amount` case) `Number(discountValue)` is used directly. -/
def discountAmount (data : SummaryInput) (settings : CalcSettings) : ℚ :=
  match data.discountSpec with
  | Option.none => 0
  | Option.some d =>
    match d.discountType with
    | DiscountType.none => 0
    | DiscountType.percentage => subtotal data settings * (d.discountValue / 100)
    | DiscountType.amount => d.discountValue

/-- `postDiscountSubtotal = subtotal - discountAmount`. -/
def postDiscountSubtotal (data : SummaryInput) (settings : CalcSettings) : ℚ :=
  subtotal data settings - discountAmount data settings

/-- `taxAmount = showTax ? postDiscountSubtotal * (taxPercentage / 100) : 0`. -/
def taxAmount (data : SummaryInput) (settings : CalcSettings) : ℚ :=
  if settings.showTax then postDiscountSubtotal data settings * (settings.taxPercentage / 100) else 0

/-- `grandTotal = postDiscountSubtotal + taxAmount`. -/
def grandTotal (data : SummaryInput) (settings : CalcSettings) : ℚ :=
  postDiscountSubtotal data settings + taxAmount data settings

/-- The record returned by exportService.getSummaryData. -/
structure Summary where
  totalSqm : ℚ
  totalTileCost : ℚ
  totalMaterialCost : ℚ
  workmanshipCost : ℚ
  workmanshipAndMaintenance : ℚ
  profitAmount : ℚ
  subtotal : ℚ
  discountAmount : ℚ
  taxAmount : ℚ
  grandTotal : ℚ
  deriving DecidableEq, Repr

/-- `getSummaryData` of src/services/exportService.ts (lines 31-62). -/
def getSummaryData (data : SummaryInput) (settings : CalcSettings) : Summary :=
  { totalSqm := totalSqm data
    totalTileCost := totalTileCost data
    totalMaterialCost := totalMaterialCost data
    workmanshipCost := workmanshipCost data
    workmanshipAndMaintenance := workmanshipAndMaintenance data settings
    profitAmount := profitAmount data settings
    subtotal := subtotal data settings
    discountAmount := discountAmount data settings
    taxAmount := taxAmount data settings
    grandTotal := grandTotal data settings }

/-- Payment status of an invoice (src/types.ts). -/
inductive InvStatus where
  | Unpaid
  | Paid
  | Overdue
  deriving DecidableEq, Repr

/-- The slice of `InvoiceData` (src/types.ts) the verified logic reads.
`invoiceNumber`, client details, bank details and notes are free text that
no verified computation consumes. -/
structure InvoiceRec where
  id : Nat
  quotationId : Nat
  dueDate : Int
  status : InvStatus
  tiles : List Tile
  materials : List Material
  workmanshipRate : ℚ
  maintenance : ℚ
  profitPercentage : Option ℚ
  discountType : DiscountType
  discountValue : ℚ
  deriving DecidableEq, Repr

/-- View an invoice record as an aggregator input (an invoice carries the
discount fields, so `'discountType' in data` holds). -/
def invoiceSummaryInput (inv : InvoiceRec) : SummaryInput :=
  { tiles := inv.tiles
    materials := inv.materials
    workmanshipRate := inv.workmanshipRate
    maintenance := inv.maintenance
    profitPercentage := inv.profitPercentage
    discountSpec := Option.some ⟨inv.discountType, inv.discountValue⟩ }

/-- `getInvoiceTotal` of the invoice list, src/unnamed/part_003 (lines 207-229).
It recomputes the same sums as `getSummaryData` up to the subtotal, applies the
invoice's discount, and then — unlike every other total site — applies
`taxAmount = postDiscountSubtotal * (taxPercentage / 100)` unconditionally:
the function destructures `showMaintenance` but not `showTax` from settings. -/
def getInvoiceTotal (inv : InvoiceRec) (settings : CalcSettings) : ℚ :=
  let sub := subtotal (invoiceSummaryInput inv) settings
  let discountAmt :=
    match inv.discountType with
    | DiscountType.percentage => sub * (inv.discountValue / 100)
    | DiscountType.amount => inv.discountValue
    | DiscountType.none => 0
  let postDiscount := sub - discountAmt
  let taxAmt := postDiscount * (settings.taxPercentage / 100)
  postDiscount + taxAmt

/-- The grand total shown by the invoice modal, src/unnamed/part_003
(lines 37-60): same pipeline, but the tax line is gated on `showTax`. -/
def invoiceModalGrandTotal (inv : InvoiceRec) (settings : CalcSettings) : ℚ :=
  let sub := subtotal (invoiceSummaryInput inv) settings
  let discountAmt :=
    match inv.discountType with
    | DiscountType.percentage => sub * (inv.discountValue / 100)
    | DiscountType.amount => inv.discountValue
    | DiscountType.none => 0
  let postDiscount := sub - discountAmt
  let taxAmt := if settings.showTax then postDiscount * (settings.taxPercentage / 100) else 0
  postDiscount + taxAmt

/-!
## JavaScript value semantics of the aggregator's `Number(x)` casts

`getSummaryData` reads every monetized field through `Number(x)` with no
`|| 0` default.  To settle the coercion claim we re-run the aggregator over
JavaScript values: `JSVal` covers the cases the stored records can contain,
`jsToNumber` is JavaScript's `Number()` on them (`Option.none` = NaN), and
`jadd`/`jsub`/`jmul` are IEEE arithmetic restricted to the NaN-or-rational
values that occur here (NaN absorbs; no infinities arise since the code only
divides by the constant 100).
-/

/-- A JavaScript value stored in a monetized record field. -/
inductive JSVal where
  | num (q : ℚ)
  | nan
  | null
  | undef
  | strV (s : String)
  deriving DecidableEq, Repr

/-- JavaScript `Number()` on a string: the string is trimmed; empty means 0;
otherwise an optionally signed decimal literal (`"12"`, `"12.5"`, `".5"`,
`"12."`); anything else is NaN.  (Hex/exponent forms do not occur in this
development.) -/
def digitsToNat (cs : List Char) : Nat :=
  cs.foldl (fun a c => a * 10 + (c.toNat - 48)) 0

/-- Parse an unsigned decimal literal. -/
def parseUnsignedDec (cs : List Char) : Option ℚ :=
  match cs.span (fun c => c.isDigit) with
  | (intPart, []) =>
    if intPart.isEmpty then Option.none else Option.some (digitsToNat intPart : ℚ)
  | (intPart, '.' :: fracPart) =>
    if fracPart.all (fun c => c.isDigit) && (!intPart.isEmpty || !fracPart.isEmpty) then
      Option.some ((digitsToNat intPart : ℚ) + (digitsToNat fracPart : ℚ) / (10 : ℚ) ^ fracPart.length)
    else Option.none
  | _ => Option.none

/-- Strip leading and trailing whitespace from a character list (the
whitespace trimming JavaScript `Number()` performs on strings). -/
def trimChars (cs : List Char) : List Char :=
  ((cs.dropWhile (fun c => c.isWhitespace)).reverse.dropWhile (fun c => c.isWhitespace)).reverse

/-- `Number(s)` for a string `s`; `Option.none` models NaN. -/
def jsStringToNumber (s : String) : Option ℚ :=
  match trimChars s.data with
  | [] => Option.some 0
  | '-' :: rest => (parseUnsignedDec rest).map (fun q => -q)
  | '+' :: rest => parseUnsignedDec rest
  | cs => parseUnsignedDec cs

/-- JavaScript `Number()` on a stored value; `Option.none` models NaN. -/
def jsToNumber : JSVal → Option ℚ
  | JSVal.num q => Option.some q
  | JSVal.nan => Option.none
  | JSVal.null => Option.some 0
  | JSVal.undef => Option.none
  | JSVal.strV s => jsStringToNumber s

/-- JavaScript truthiness of a stored value (`0`, `NaN`, `null`, `undefined`
and the empty string are falsy). -/
def jsTruthy : JSVal → Bool
  | JSVal.num q => q != 0
  | JSVal.nan => false
  | JSVal.null => false
  | JSVal.undef => false
  | JSVal.strV s => s != ""

/-- IEEE `+` on NaN-or-rational values: NaN absorbs. -/
def jadd : Option ℚ → Option ℚ → Option ℚ
  | Option.some a, Option.some b => Option.some (a + b)
  | _, _ => Option.none

/-- IEEE `-` on NaN-or-rational values. -/
def jsub : Option ℚ → Option ℚ → Option ℚ
  | Option.some a, Option.some b => Option.some (a - b)
  | _, _ => Option.none

/-- IEEE `*` on NaN-or-rational values (no infinities occur here). -/
def jmul : Option ℚ → Option ℚ → Option ℚ
  | Option.some a, Option.some b => Option.some (a * b)
  | _, _ => Option.none

/-- Division by a nonzero constant (the code divides only by 100). -/
def jdivC (a : Option ℚ) (c : ℚ) : Option ℚ :=
  a.map (fun x => x / c)

/-- A tile whose stored fields are raw JavaScript values. -/
structure TileJS where
  cartons : JSVal
  sqm : JSVal
  unitPrice : JSVal
  deriving DecidableEq, Repr

/-- A material whose stored fields are raw JavaScript values. -/
structure MaterialJS where
  quantity : JSVal
  unitPrice : JSVal
  deriving DecidableEq, Repr

/-- Aggregator input with raw stored values.  `hasDiscountField` models
`'discountType' in data`. -/
structure SummaryInputJS where
  tiles : List TileJS
  materials : List MaterialJS
  workmanshipRate : JSVal
  maintenance : JSVal
  profitPercentage : JSVal
  hasDiscountField : Bool
  discountType : DiscountType
  discountValue : JSVal
  deriving DecidableEq, Repr

/-- `totalSqm` over raw values. -/
def jsTotalSqm (data : SummaryInputJS) : Option ℚ :=
  data.tiles.foldl (fun acc tile => jadd acc (jsToNumber tile.sqm)) (Option.some 0)

/-- `totalTileCost` over raw values. -/
def jsTotalTileCost (data : SummaryInputJS) : Option ℚ :=
  data.tiles.foldl (fun acc tile => jadd acc (jmul (jsToNumber tile.cartons) (jsToNumber tile.unitPrice))) (Option.some 0)

/-- `totalMaterialCost` over raw values. -/
def jsTotalMaterialCost (data : SummaryInputJS) : Option ℚ :=
  data.materials.foldl (fun acc mat => jadd acc (jmul (jsToNumber mat.quantity) (jsToNumber mat.unitPrice))) (Option.some 0)

/-- `workmanshipCost` over raw values. -/
def jsWorkmanshipCost (data : SummaryInputJS) : Option ℚ :=
  jmul (jsTotalSqm data) (jsToNumber data.workmanshipRate)

/-- `workmanshipAndMaintenance` over raw values. -/
def jsWorkmanshipAndMaintenance (data : SummaryInputJS) (settings : CalcSettings) : Option ℚ :=
  jadd (jsWorkmanshipCost data)
    (if settings.showMaintenance then jsToNumber data.maintenance else Option.some 0)

/-- `preProfitTotal` over raw values. -/
def jsPreProfitTotal (data : SummaryInputJS) (settings : CalcSettings) : Option ℚ :=
  jadd (jadd (jsTotalTileCost data) (jsTotalMaterialCost data)) (jsWorkmanshipAndMaintenance data settings)

/-- `profitAmount` over raw values: the truthiness test is on the raw stored
value, the multiplication on its `Number()` coercion. -/
def jsProfitAmount (data : SummaryInputJS) (settings : CalcSettings) : Option ℚ :=
  if jsTruthy data.profitPercentage then
    jmul (jsPreProfitTotal data settings) (jdivC (jsToNumber data.profitPercentage) 100)
  else Option.some 0

/-- `subtotal` over raw values. -/
def jsSubtotal (data : SummaryInputJS) (settings : CalcSettings) : Option ℚ :=
  jadd (jsPreProfitTotal data settings) (jsProfitAmount data settings)

/-- `discountAmount` over raw values. -/
def jsDiscountAmount (data : SummaryInputJS) (settings : CalcSettings) : Option ℚ :=
  if data.hasDiscountField then
    match data.discountType with
    | DiscountType.none => Option.some 0
    | DiscountType.percentage =>
      jmul (jsSubtotal data settings) (jdivC (jsToNumber data.discountValue) 100)
    | DiscountType.amount => jsToNumber data.discountValue
  else Option.some 0

/-- `postDiscountSubtotal` over raw values. -/
def jsPostDiscountSubtotal (data : SummaryInputJS) (settings : CalcSettings) : Option ℚ :=
  jsub (jsSubtotal data settings) (jsDiscountAmount data settings)

/-- `taxAmount` over raw values (`taxPercentage` is a typed number in Settings). -/
def jsTaxAmount (data : SummaryInputJS) (settings : CalcSettings) : Option ℚ :=
  if settings.showTax then
    jmul (jsPostDiscountSubtotal data settings) (Option.some (settings.taxPercentage / 100))
  else Option.some 0

/-- `grandTotal` over raw values. -/
def jsGrandTotal (data : SummaryInputJS) (settings : CalcSettings) : Option ℚ :=
  jadd (jsPostDiscountSubtotal data settings) (jsTaxAmount data settings)

/-- The summary record over raw values; `Option.none` fields are NaN. -/
structure SummaryJS where
  totalSqm : Option ℚ
  totalTileCost : Option ℚ
  totalMaterialCost : Option ℚ
  workmanshipCost : Option ℚ
  workmanshipAndMaintenance : Option ℚ
  profitAmount : Option ℚ
  subtotal : Option ℚ
  discountAmount : Option ℚ
  taxAmount : Option ℚ
  grandTotal : Option ℚ
  deriving DecidableEq, Repr

/-- `getSummaryData` run on raw JavaScript values exactly as the source does. -/
def getSummaryDataJS (data : SummaryInputJS) (settings : CalcSettings) : SummaryJS :=
  { totalSqm := jsTotalSqm data
    totalTileCost := jsTotalTileCost data
    totalMaterialCost := jsTotalMaterialCost data
    workmanshipCost := jsWorkmanshipCost data
    workmanshipAndMaintenance := jsWorkmanshipAndMaintenance data settings
    profitAmount := jsProfitAmount data settings
    subtotal := jsSubtotal data settings
    discountAmount := jsDiscountAmount data settings
    taxAmount := jsTaxAmount data settings
    grandTotal := jsGrandTotal data settings }

/-- A raw value that `Number()` coerces to an actual number (not NaN):
numbers, `null`, and cleanly-parsing (or empty) strings. -/
def JSCoerces (v : JSVal) : Prop :=
  (jsToNumber v).isSome

instance (v : JSVal) : Decidable (JSCoerces v) := by
  unfold JSCoerces
  infer_instance

/-- The number a coercing raw value contributes. -/
def toNum (v : JSVal) : ℚ :=
  (jsToNumber v).getD 0

/-- Coerce a raw tile to its numeric contribution. -/
def coerceTile (t : TileJS) : Tile :=
  { cartons := toNum t.cartons, sqm := toNum t.sqm, unitPrice := toNum t.unitPrice }

/-- Coerce a raw material to its numeric contribution. -/
def coerceMaterial (m : MaterialJS) : Material :=
  { quantity := toNum m.quantity, unitPrice := toNum m.unitPrice }

/-- Coerce a raw record to the rational aggregator input it behaves as:
fields through `Number()`, the profit percentage through JavaScript
truthiness (falsy raw values act as `null`). -/
def coerceInput (data : SummaryInputJS) : SummaryInput :=
  { tiles := data.tiles.map coerceTile
    materials := data.materials.map coerceMaterial
    workmanshipRate := toNum data.workmanshipRate
    maintenance := toNum data.maintenance
    profitPercentage :=
      if jsTruthy data.profitPercentage then Option.some (toNum data.profitPercentage)
      else Option.none
    discountSpec :=
      if data.hasDiscountField then Option.some ⟨data.discountType, toNum data.discountValue⟩
      else Option.none }

/-- Wrap a rational summary as a NaN-free raw summary. -/
def someSummary (r : Summary) : SummaryJS :=
  { totalSqm := Option.some r.totalSqm
    totalTileCost := Option.some r.totalTileCost
    totalMaterialCost := Option.some r.totalMaterialCost
    workmanshipCost := Option.some r.workmanshipCost
    workmanshipAndMaintenance := Option.some r.workmanshipAndMaintenance
    profitAmount := Option.some r.profitAmount
    subtotal := Option.some r.subtotal
    discountAmount := Option.some r.discountAmount
    taxAmount := Option.some r.taxAmount
    grandTotal := Option.some r.grandTotal }

/-!
## Application state and lifecycle handlers

src/components/AddMaterialModal.tsx concatenates two versions of the App
component.  Where their handlers differ the two are embedded separately:
`handleConvertToInvoice1` is the handler of the first App (lines 616-652),
`handleConvertToInvoice2` that of the second App (lines 1675-1717).  All
mutation in the source is an immutable replacement of a record inside a
React state list (`prev.map(q => q.id === updated.id ? updated : q)`,
`prev.filter(...)`, prepending a new record), which is embedded directly as
the corresponding pure list operation.
-/

/-- Quotation lifecycle status (src/types.ts). -/
inductive QStatus where
  | Pending
  | Accepted
  | Rejected
  | Invoiced
  deriving DecidableEq, Repr

/-- The slice of `QuotationData` (src/types.ts) the verified logic reads. -/
structure QuotationRec where
  id : Nat
  status : QStatus
  tiles : List Tile
  materials : List Material
  workmanshipRate : ℚ
  maintenance : ℚ
  profitPercentage : Option ℚ
  invoiceId : Option Nat
  deriving DecidableEq, Repr

/-- View a quotation as an aggregator input (`'discountType' in data` is
false for a quotation, so no discount step applies). -/
def quotationSummaryInput (q : QuotationRec) : SummaryInput :=
  { tiles := q.tiles
    materials := q.materials
    workmanshipRate := q.workmanshipRate
    maintenance := q.maintenance
    profitPercentage := q.profitPercentage
    discountSpec := Option.none }

/-- `handleUpdateQuotation` (lines 1544-1548) / `handleQuotationUpdate`
(lines 575-578): `prev.map(q => q.id === updatedQuotation.id ? updatedQuotation : q)`. -/
def handleUpdateQuotation (qs : List QuotationRec) (updated : QuotationRec) : List QuotationRec :=
  qs.map (fun q => if q.id = updated.id then updated else q)

/-- The in-memory record collections the handlers mutate. -/
structure AppState where
  quotations : List QuotationRec
  invoices : List InvoiceRec
  deriving DecidableEq, Repr

/-- The invoice record built by conversion: line items and rates are taken
from the quotation, payment status starts `Unpaid`.  The second App sets
`discountType: 'none', discountValue: 0` explicitly; the first App omits the
discount fields altogether, which the aggregator treats identically to
`'none'`, so both are embedded with a `none` discount. -/
def mkConvertedInvoice (quote : QuotationRec) (newId : Nat) (dueDate : Int) : InvoiceRec :=
  { id := newId
    quotationId := quote.id
    dueDate := dueDate
    status := InvStatus.Unpaid
    tiles := quote.tiles
    materials := quote.materials
    workmanshipRate := quote.workmanshipRate
    maintenance := quote.maintenance
    profitPercentage := quote.profitPercentage
    discountType := DiscountType.none
    discountValue := 0 }

/-- `handleConvertToInvoice` of the FIRST App (lines 616-652): refuses when
the quotation is missing or already has `invoiceId` set; it performs NO
status check.  On success it prepends the new invoice and marks the
quotation `Invoiced` with its `invoiceId` linked. -/
def handleConvertToInvoice1 (st : AppState) (qid newId : Nat) (dueDate : Int) : AppState :=
  match st.quotations.find? (fun q => q.id == qid) with
  | Option.none => st
  | Option.some quote =>
    if quote.invoiceId.isSome then st
    else
      { quotations := handleUpdateQuotation st.quotations
          ({ quote with status := QStatus.Invoiced, invoiceId := Option.some newId })
        invoices := mkConvertedInvoice quote newId dueDate :: st.invoices }

/-- `handleConvertToInvoice` of the SECOND App (lines 1675-1717): refuses
when the quotation is missing, when its status is not `Accepted`, or when
`invoiceId` is already set. -/
def handleConvertToInvoice2 (st : AppState) (qid newId : Nat) (dueDate : Int) : AppState :=
  match st.quotations.find? (fun q => q.id == qid) with
  | Option.none => st
  | Option.some quote =>
    if quote.status ≠ QStatus.Accepted then st
    else if quote.invoiceId.isSome then st
    else
      { quotations := handleUpdateQuotation st.quotations
          ({ quote with status := QStatus.Invoiced, invoiceId := Option.some newId })
        invoices := mkConvertedInvoice quote newId dueDate :: st.invoices }

/-- `handleDeleteInvoice` (lines 695-706 and 1733-1746, identical
semantics): filter the invoice out; if it existed and its linked quotation
is found, revert that quotation to `Accepted` and clear its `invoiceId`. -/
def handleDeleteInvoice (st : AppState) (invId : Nat) : AppState :=
  let invoicesAfter := st.invoices.filter (fun i => i.id != invId)
  match st.invoices.find? (fun i => i.id == invId) with
  | Option.none => { st with invoices := invoicesAfter }
  | Option.some invoiceToDelete =>
    match st.quotations.find? (fun q => q.id == invoiceToDelete.quotationId) with
    | Option.none => { st with invoices := invoicesAfter }
    | Option.some linkedQuote =>
      { quotations := handleUpdateQuotation st.quotations
          ({ linkedQuote with status := QStatus.Accepted, invoiceId := Option.none })
        invoices := invoicesAfter }

/-- `handleStatusChange` of the quotation view (src/components/Expenses.tsx
lines 208-212) as reachable from the UI: the Accept/Reject buttons render
only under `status === 'Pending'` (line 462), and the handler replaces the
record with status `Accepted` or `Rejected`. -/
def handleStatusChange (st : AppState) (qid : Nat) (accept : Bool) : AppState :=
  match st.quotations.find? (fun q => q.id == qid) with
  | Option.none => st
  | Option.some q =>
    if q.status = QStatus.Pending then
      let updated := { q with status := if accept then QStatus.Accepted else QStatus.Rejected }
      { st with quotations := handleUpdateQuotation st.quotations updated }
    else st

/-- `handleUpdateTiles` (lines 1615-1624): replace the quotation's tile list
(EditTilesModal edits a deep copy and hands back fresh objects). -/
def handleUpdateTiles (st : AppState) (qid : Nat) (tiles : List Tile) : AppState :=
  match st.quotations.find? (fun q => q.id == qid) with
  | Option.none => st
  | Option.some q =>
    { st with quotations := handleUpdateQuotation st.quotations ({ q with tiles := tiles }) }

/-- `handleAddMaterial` (lines 1605-1613): append one material line item. -/
def handleAddMaterial (st : AppState) (qid : Nat) (m : Material) : AppState :=
  match st.quotations.find? (fun q => q.id == qid) with
  | Option.none => st
  | Option.some q =>
    let updated := { q with materials := q.materials ++ [m] }
    { st with quotations := handleUpdateQuotation st.quotations updated }

/-- The user-reachable operations that touch quotation status or the record
collections: Accept/Reject from Pending, the two conversion handlers,
invoice deletion, and the line-item edits.  (Record creation always starts
at `Pending` and invoice edits never touch quotations.) -/
inductive AppOp where
  | statusChange (qid : Nat) (accept : Bool)
  | convertA (qid newId : Nat) (dueDate : Int)
  | convertB (qid newId : Nat) (dueDate : Int)
  | deleteInvoice (invId : Nat)
  | editTiles (qid : Nat) (tiles : List Tile)
  | addMaterial (qid : Nat) (m : Material)
  deriving DecidableEq, Repr

/-- Apply one user operation to the application state. -/
def applyOp : AppOp → AppState → AppState
  | AppOp.statusChange qid accept, st => handleStatusChange st qid accept
  | AppOp.convertA qid newId due, st => handleConvertToInvoice1 st qid newId due
  | AppOp.convertB qid newId due, st => handleConvertToInvoice2 st qid newId due
  | AppOp.deleteInvoice invId, st => handleDeleteInvoice st invId
  | AppOp.editTiles qid tiles, st => handleUpdateTiles st qid tiles
  | AppOp.addMaterial qid m, st => handleAddMaterial st qid m

/-- `processedInvoices` of the invoice list (src/unnamed/part_003 lines
245-254): each invoice is displayed with status `Overdue` when it is stored
`Unpaid` and past due; a fresh record is built (`{ ...inv, status }`), the
stored collection is not written. -/
def processedInvoices (invoices : List InvoiceRec) (now : Int) : List InvoiceRec :=
  invoices.map (fun inv =>
    { inv with status :=
        if inv.status = InvStatus.Unpaid ∧ inv.dueDate < now then InvStatus.Overdue
        else inv.status })

/-!
## Derived quantities used to state the algebraic claims
-/

/-- Multiplicative effect of the profit step on the pre-profit total:
`subtotal = preProfitTotal * profitFactor`. -/
def profitFactor (pp : Option ℚ) : ℚ :=
  match pp with
  | Option.none => 1
  | Option.some p => if p = 0 then 1 else 1 + p / 100

/-- Multiplicative effect of the discount step on the subtotal. -/
def discountFactor (ds : Option DiscountSpec) : ℚ :=
  match ds with
  | Option.none => 1
  | Option.some d =>
    match d.discountType with
    | DiscountType.percentage => 1 - d.discountValue / 100
    | DiscountType.amount => 1
    | DiscountType.none => 1

/-- Additive offset of the discount step (the uncapped `amount` discount). -/
def discountOffset (ds : Option DiscountSpec) : ℚ :=
  match ds with
  | Option.none => 0
  | Option.some d =>
    match d.discountType with
    | DiscountType.amount => d.discountValue
    | DiscountType.percentage => 0
    | DiscountType.none => 0

/-- Multiplicative effect of the tax step on the post-discount subtotal. -/
def taxFactor (settings : CalcSettings) : ℚ :=
  if settings.showTax then 1 + settings.taxPercentage / 100 else 1

/-- Replace the discount fields of a record (used to vary `discountValue`). -/
def setDiscount (data : SummaryInput) (dt : DiscountType) (v : ℚ) : SummaryInput :=
  { data with discountSpec := Option.some ⟨dt, v⟩ }

/-- The spec's data-model invariant: all monetary and quantity fields are
non-negative (and a specified profit percentage is non-negative). -/
def NonnegInput (data : SummaryInput) : Prop :=
  (∀ t ∈ data.tiles, 0 ≤ t.cartons ∧ 0 ≤ t.sqm ∧ 0 ≤ t.unitPrice)
  ∧ (∀ m ∈ data.materials, 0 ≤ m.quantity ∧ 0 ≤ m.unitPrice)
  ∧ 0 ≤ data.workmanshipRate
  ∧ 0 ≤ data.maintenance
  ∧ (∀ p, data.profitPercentage = Option.some p → 0 ≤ p)

/-!
## Concrete reference inputs used by the scenario checks and witnesses
-/

/-- The spec's reference tile: cartons 10, sqm 15, unit price 5600. -/
def refTile : Tile := { cartons := 10, sqm := 15, unitPrice := 5600 }

/-- Reference scenario 1 record. -/
def refData1 : SummaryInput :=
  { tiles := [refTile], materials := [], workmanshipRate := 1700, maintenance := 50000
    profitPercentage := Option.none, discountSpec := Option.none }

/-- Reference scenario 2 record: scenario 1 with a 10% profit. -/
def refData2 : SummaryInput :=
  { refData1 with profitPercentage := Option.some 10 }

/-- Settings for reference scenarios 1-2: maintenance shown, tax off. -/
def refSettings12 : CalcSettings :=
  { showMaintenance := true, taxPercentage := 15 / 2, showTax := false }

/-- Reference scenario 3 record: an invoice whose subtotal is 100000
(carried entirely by the maintenance fee) with a 10% discount. -/
def refData3 : SummaryInput :=
  { tiles := [], materials := [], workmanshipRate := 0, maintenance := 100000
    profitPercentage := Option.none
    discountSpec := Option.some ⟨DiscountType.percentage, 10⟩ }

/-- Settings for reference scenario 3: tax shown at 7.5%. -/
def refSettings3 : CalcSettings :=
  { showMaintenance := true, taxPercentage := 15 / 2, showTax := true }

/-- Settings with the maintenance toggle forced to `b`. -/
def withMaint (settings : CalcSettings) (b : Bool) : CalcSettings :=
  { settings with showMaintenance := b }

/-- A record with empty line items, maintenance 50000 and a 10% profit. -/
def refData6 : SummaryInput :=
  { tiles := [], materials := [], workmanshipRate := 1700, maintenance := 50000
    profitPercentage := Option.some 10, discountSpec := Option.none }

/-- A record with empty line items, maintenance 100 and a 10% profit. -/
def refData7 : SummaryInput :=
  { tiles := [], materials := [], workmanshipRate := 0, maintenance := 100
    profitPercentage := Option.some 10, discountSpec := Option.none }

/-- An invoice whose subtotal is 100000, with no discount. -/
def refInvoice : InvoiceRec :=
  { id := 1, quotationId := 1, dueDate := 0, status := InvStatus.Unpaid
    tiles := [], materials := [], workmanshipRate := 0, maintenance := 100000
    profitPercentage := Option.none
    discountType := DiscountType.none, discountValue := 0 }

/-- A raw-valued record whose tile has an `undefined` sqm field. -/
def rawDataUndef : SummaryInputJS :=
  { tiles := [{ cartons := JSVal.num 10, sqm := JSVal.undef, unitPrice := JSVal.num 5600 }]
    materials := [], workmanshipRate := JSVal.num 1700, maintenance := JSVal.num 50000
    profitPercentage := JSVal.null
    hasDiscountField := false, discountType := DiscountType.none, discountValue := JSVal.num 0 }

/-- A raw-valued record mixing `null`, numeric-string and number fields,
all of which `Number()` coerces cleanly. -/
def rawDataMixed : SummaryInputJS :=
  { tiles := [{ cartons := JSVal.strV "10", sqm := JSVal.num 15, unitPrice := JSVal.num 5600 }]
    materials := [{ quantity := JSVal.null, unitPrice := JSVal.strV "12.5" }]
    workmanshipRate := JSVal.strV "1700", maintenance := JSVal.null
    profitPercentage := JSVal.strV "10"
    hasDiscountField := false, discountType := DiscountType.none, discountValue := JSVal.num 0 }

/-- A raw-valued record whose tile has a non-numeric string sqm field. -/
def rawDataBadStr : SummaryInputJS :=
  { rawDataUndef with
      tiles := [{ cartons := JSVal.num 10, sqm := JSVal.strV "abc", unitPrice := JSVal.num 5600 }] }

/-- A pending quotation with no invoice link. -/
def refPendingQuote : QuotationRec :=
  { id := 1, status := QStatus.Pending, tiles := [refTile], materials := []
    workmanshipRate := 1700, maintenance := 50000, profitPercentage := Option.none
    invoiceId := Option.none }

/-- An accepted quotation with no invoice link. -/
def refAcceptedQuote : QuotationRec :=
  { refPendingQuote with id := 2, status := QStatus.Accepted }

/-- A state holding one pending and one accepted quotation. -/
def refState : AppState :=
  { quotations := [refPendingQuote, refAcceptedQuote], invoices := [] }

/-- An invoiced quotation linked to invoice 7. -/
def refInvoicedQuote : QuotationRec :=
  { refPendingQuote with id := 3, status := QStatus.Invoiced, invoiceId := Option.some 7 }

/-- The invoice generated from `refInvoicedQuote`. -/
def refLinkedInvoice : InvoiceRec := mkConvertedInvoice refInvoicedQuote 7 0

/-- A state holding an invoiced quotation and its generated invoice. -/
def refStateInvoiced : AppState :=
  { quotations := [refInvoicedQuote, refAcceptedQuote], invoices := [refLinkedInvoice] }

/-- An unpaid invoice whose due date (0) lies in the past relative to now = 5. -/
def refOverdueInvoice : InvoiceRec :=
  { refInvoice with id := 9, dueDate := 0, status := InvStatus.Unpaid }

/-!
## Helper lemmas
-/

/-- The profit step is multiplication by `profitFactor`. -/
theorem subtotal_factor (data : SummaryInput) (settings : CalcSettings) :
    subtotal data settings = preProfitTotal data settings * profitFactor data.profitPercentage := by
  rcases hpp : data.profitPercentage with _ | p
  · simp [subtotal, profitAmount, profitFactor, hpp]
  · by_cases h0 : p = 0
    · simp [subtotal, profitAmount, profitFactor, hpp, h0]
    · simp only [subtotal, profitAmount, profitFactor, hpp, if_neg h0]
      ring

/-- The profit amount in factored form. -/
theorem profitAmount_factor (data : SummaryInput) (settings : CalcSettings) :
    profitAmount data settings
      = preProfitTotal data settings * (profitFactor data.profitPercentage - 1) := by
  rcases hpp : data.profitPercentage with _ | p
  · simp [profitAmount, profitFactor, hpp]
  · by_cases h0 : p = 0
    · simp [profitAmount, profitFactor, hpp, h0]
    · simp only [profitAmount, profitFactor, hpp, if_neg h0]
      ring

/-- The discount step is multiplication by `discountFactor` minus `discountOffset`. -/
theorem postDiscount_factor (data : SummaryInput) (settings : CalcSettings) :
    postDiscountSubtotal data settings
      = subtotal data settings * discountFactor data.discountSpec
        - discountOffset data.discountSpec := by
  rcases hds : data.discountSpec with _ | ⟨dt, dv⟩
  · simp [postDiscountSubtotal, discountAmount, discountFactor, discountOffset, hds]
  · cases dt <;>
      simp [postDiscountSubtotal, discountAmount, discountFactor, discountOffset, hds] <;>
      ring

/-- The tax step is multiplication by `taxFactor`. -/
theorem grandTotal_factor (data : SummaryInput) (settings : CalcSettings) :
    grandTotal data settings = postDiscountSubtotal data settings * taxFactor settings := by
  unfold grandTotal taxAmount taxFactor
  cases hst : settings.showTax <;> simp [hst] <;> ring

/-!
## C1: the reference scenarios
-/

/-- C1: the cost aggregator reproduces the spec's three reference scenarios
exactly: (1) tiles `[{cartons 10, unitPrice 5600, sqm 15}]`, rate 1700,
maintenance 50000 shown, no profit, no tax; (2) the same with 10% profit;
(3) an invoice of subtotal 100000 with a 10% percentage discount and 7.5%
tax. -/
theorem claim1_reference_scenarios :
    (getSummaryData refData1 refSettings12).totalTileCost = 56000
    ∧ (getSummaryData refData1 refSettings12).workmanshipCost = 25500
    ∧ (getSummaryData refData1 refSettings12).workmanshipAndMaintenance = 75500
    ∧ (getSummaryData refData1 refSettings12).subtotal = 131500
    ∧ (getSummaryData refData1 refSettings12).grandTotal = 131500
    ∧ (getSummaryData refData2 refSettings12).profitAmount = 13150
    ∧ (getSummaryData refData2 refSettings12).subtotal = 144650
    ∧ (getSummaryData refData2 refSettings12).grandTotal = 144650
    ∧ (getSummaryData refData3 refSettings3).subtotal = 100000
    ∧ (getSummaryData refData3 refSettings3).discountAmount = 10000
    ∧ postDiscountSubtotal refData3 refSettings3 = 90000
    ∧ (getSummaryData refData3 refSettings3).taxAmount = 6750
    ∧ (getSummaryData refData3 refSettings3).grandTotal = 96750 := by
  refine ⟨?_, ?_, ?_, ?_, ?_, ?_, ?_, ?_, ?_, ?_, ?_, ?_, ?_⟩ <;>
    norm_num [getSummaryData, grandTotal, taxAmount, postDiscountSubtotal, discountAmount,
      subtotal, profitAmount, preProfitTotal, workmanshipAndMaintenance, workmanshipCost,
      totalSqm, totalTileCost, totalMaterialCost, refData1, refData2, refData3,
      refSettings12, refSettings3, refTile]

/-!
## C2: the showTax gate
-/

/-- C2: the claim that the tax amount is zero whenever `showTax` is false
"at every place a grand total is computed" fails at the invoice-list total:
on an invoice whose subtotal is 100000 with `showTax = false` and a 7.5%
tax percentage, `getSummaryData` and the invoice modal both report a grand
total of 100000 (tax 0), but `getInvoiceTotal` — which never reads
`showTax` — reports 107500. -/
theorem claim2_invoice_list_ignores_show_tax :
    refSettings12.showTax = false
    ∧ (getSummaryData (invoiceSummaryInput refInvoice) refSettings12).taxAmount = 0
    ∧ (getSummaryData (invoiceSummaryInput refInvoice) refSettings12).grandTotal = 100000
    ∧ invoiceModalGrandTotal refInvoice refSettings12 = 100000
    ∧ getInvoiceTotal refInvoice refSettings12 = 107500 := by
  refine ⟨rfl, ?_, ?_, ?_, ?_⟩ <;>
    norm_num [getSummaryData, getInvoiceTotal, invoiceModalGrandTotal, grandTotal, taxAmount,
      postDiscountSubtotal, discountAmount, subtotal, profitAmount, preProfitTotal,
      workmanshipAndMaintenance, workmanshipCost, totalSqm, totalTileCost, totalMaterialCost,
      invoiceSummaryInput, refInvoice, refSettings12]

/-!
## C6: empty tiles and materials
-/

/-- C6 counterexample: with empty `tiles` and `materials`, maintenance 50000
shown and a 10% profit percentage (no discount, no tax), the aggregator's
profit amount is 5000 — not "necessarily zero" — and the grand total is
55000, not `workmanshipAndMaintenance` (50000) adjusted only by discount
and tax (which are both identity here). -/
theorem claim6_counterexample_profit_on_maintenance :
    (getSummaryData refData6 refSettings12).workmanshipAndMaintenance = 50000
    ∧ (getSummaryData refData6 refSettings12).discountAmount = 0
    ∧ (getSummaryData refData6 refSettings12).taxAmount = 0
    ∧ (getSummaryData refData6 refSettings12).profitAmount = 5000
    ∧ (getSummaryData refData6 refSettings12).grandTotal = 55000 := by
  refine ⟨?_, ?_, ?_, ?_, ?_⟩ <;>
    norm_num [getSummaryData, grandTotal, taxAmount, postDiscountSubtotal, discountAmount,
      subtotal, profitAmount, preProfitTotal, workmanshipAndMaintenance, workmanshipCost,
      totalSqm, totalTileCost, totalMaterialCost, refData6, refSettings12]

/-- C6 (amended): with empty `tiles` and `materials`, the pre-profit total
collapses to `workmanshipAndMaintenance`, so the profit amount equals
`workmanshipAndMaintenance * (profitFactor - 1)` (zero exactly when the
profit percentage is null or 0) and the grand total is
`workmanshipAndMaintenance` times the profit factor, adjusted by the
discount and tax steps; only when the profit percentage is null or 0 does
the grand total equal `workmanshipAndMaintenance` adjusted by discount and
tax alone. -/
theorem claim6_amended_empty_record_totals (data : SummaryInput) (settings : CalcSettings)
    (htiles : data.tiles = []) (hmats : data.materials = []) :
    (getSummaryData data settings).profitAmount
      = (getSummaryData data settings).workmanshipAndMaintenance
        * (profitFactor data.profitPercentage - 1)
    ∧ (getSummaryData data settings).grandTotal
      = ((getSummaryData data settings).workmanshipAndMaintenance
          * profitFactor data.profitPercentage * discountFactor data.discountSpec
          - discountOffset data.discountSpec) * taxFactor settings
    ∧ ((data.profitPercentage = Option.none ∨ data.profitPercentage = Option.some 0) →
        (getSummaryData data settings).profitAmount = 0
        ∧ (getSummaryData data settings).grandTotal
          = ((getSummaryData data settings).workmanshipAndMaintenance
              * discountFactor data.discountSpec - discountOffset data.discountSpec)
            * taxFactor settings) := by
  have hpre : preProfitTotal data settings = workmanshipAndMaintenance data settings := by
    simp [preProfitTotal, totalTileCost, totalMaterialCost, htiles, hmats]
  have hpa : (getSummaryData data settings).profitAmount
      = (getSummaryData data settings).workmanshipAndMaintenance
        * (profitFactor data.profitPercentage - 1) := by
    show profitAmount data settings
      = workmanshipAndMaintenance data settings * (profitFactor data.profitPercentage - 1)
    rw [profitAmount_factor, hpre]
  have hgt : (getSummaryData data settings).grandTotal
      = ((getSummaryData data settings).workmanshipAndMaintenance
          * profitFactor data.profitPercentage * discountFactor data.discountSpec
          - discountOffset data.discountSpec) * taxFactor settings := by
    show grandTotal data settings
      = (workmanshipAndMaintenance data settings * profitFactor data.profitPercentage
          * discountFactor data.discountSpec - discountOffset data.discountSpec)
        * taxFactor settings
    rw [grandTotal_factor, postDiscount_factor, subtotal_factor, hpre]
  refine ⟨hpa, hgt, fun hpp => ⟨?_, ?_⟩⟩
  · rw [hpa]
    rcases hpp with h | h <;> simp [profitFactor, h]
  · rw [hgt]
    rcases hpp with h | h <;> simp [profitFactor, h]

/-- C6 witness: the factored form concretely, on the empty-line-item record
with maintenance 50000 and a 10% profit. -/
theorem claim6_amended_empty_record_totals_witness :
    (getSummaryData refData6 refSettings12).profitAmount
      = (getSummaryData refData6 refSettings12).workmanshipAndMaintenance
        * (profitFactor refData6.profitPercentage - 1)
    ∧ (getSummaryData refData6 refSettings12).grandTotal
      = ((getSummaryData refData6 refSettings12).workmanshipAndMaintenance
          * profitFactor refData6.profitPercentage * discountFactor refData6.discountSpec
          - discountOffset refData6.discountSpec) * taxFactor refSettings12 := by
  have h := claim6_amended_empty_record_totals refData6 refSettings12 rfl rfl
  exact ⟨h.1, h.2.1⟩

/-!
## C7: the showMaintenance toggle
-/

/-- C7 counterexample: with maintenance 100 and a 10% profit percentage
(empty line items, no discount, no tax), the subtotal with
`showMaintenance = true` is 110 and with `showMaintenance = false` is 0: the
difference is 110, not "exactly the maintenance amount" (100). -/
theorem claim7_counterexample_profit_scales_difference :
    refData7.maintenance = 100
    ∧ (getSummaryData refData7 (withMaint refSettings12 true)).subtotal = 110
    ∧ (getSummaryData refData7 (withMaint refSettings12 false)).subtotal = 0
    ∧ (getSummaryData refData7 (withMaint refSettings12 true)).grandTotal
        - (getSummaryData refData7 (withMaint refSettings12 false)).grandTotal = 110 := by
  refine ⟨rfl, ?_, ?_, ?_⟩ <;>
    norm_num [getSummaryData, grandTotal, taxAmount, postDiscountSubtotal, discountAmount,
      subtotal, profitAmount, preProfitTotal, workmanshipAndMaintenance, workmanshipCost,
      totalSqm, totalTileCost, totalMaterialCost, refData7, refSettings12, withMaint]

/-- C7 (amended): turning `showMaintenance` off decreases
`workmanshipAndMaintenance` by exactly the maintenance amount; each later
total decreases by the maintenance amount scaled by the factors of the
steps between them: the profit factor for the subtotal, additionally the
discount factor for the post-discount subtotal, and additionally the tax
factor for the grand total (all three factors are 1 — giving exactly the
maintenance amount — when profit is unset, the discount is not
percentage-type, and tax is off). -/
theorem claim7_amended_maintenance_toggle_factors (data : SummaryInput) (settings : CalcSettings) :
    (getSummaryData data (withMaint settings true)).workmanshipAndMaintenance
        - (getSummaryData data (withMaint settings false)).workmanshipAndMaintenance
      = data.maintenance
    ∧ (getSummaryData data (withMaint settings true)).subtotal
        - (getSummaryData data (withMaint settings false)).subtotal
      = data.maintenance * profitFactor data.profitPercentage
    ∧ postDiscountSubtotal data (withMaint settings true)
        - postDiscountSubtotal data (withMaint settings false)
      = data.maintenance * profitFactor data.profitPercentage * discountFactor data.discountSpec
    ∧ (getSummaryData data (withMaint settings true)).grandTotal
        - (getSummaryData data (withMaint settings false)).grandTotal
      = data.maintenance * profitFactor data.profitPercentage * discountFactor data.discountSpec
        * taxFactor settings := by
  have hwm : workmanshipAndMaintenance data (withMaint settings true)
      - workmanshipAndMaintenance data (withMaint settings false) = data.maintenance := by
    simp [workmanshipAndMaintenance, withMaint]
  have hpre : preProfitTotal data (withMaint settings true)
      - preProfitTotal data (withMaint settings false) = data.maintenance := by
    simp only [preProfitTotal]
    have := hwm
    linarith
  have hsub : subtotal data (withMaint settings true) - subtotal data (withMaint settings false)
      = data.maintenance * profitFactor data.profitPercentage := by
    rw [subtotal_factor, subtotal_factor, ← sub_mul, hpre]
  have hpost : postDiscountSubtotal data (withMaint settings true)
      - postDiscountSubtotal data (withMaint settings false)
      = data.maintenance * profitFactor data.profitPercentage
        * discountFactor data.discountSpec := by
    rw [postDiscount_factor, postDiscount_factor]
    have h : subtotal data (withMaint settings true) * discountFactor data.discountSpec
        - discountOffset data.discountSpec
        - (subtotal data (withMaint settings false) * discountFactor data.discountSpec
          - discountOffset data.discountSpec)
        = (subtotal data (withMaint settings true) - subtotal data (withMaint settings false))
          * discountFactor data.discountSpec := by ring
    rw [h, hsub]
  have htaxfac : ∀ b, taxFactor (withMaint settings b) = taxFactor settings := fun b => rfl
  have hgrand : grandTotal data (withMaint settings true)
      - grandTotal data (withMaint settings false)
      = data.maintenance * profitFactor data.profitPercentage * discountFactor data.discountSpec
        * taxFactor settings := by
    rw [grandTotal_factor, grandTotal_factor, htaxfac, htaxfac, ← sub_mul, hpost]
  exact ⟨hwm, hsub, hpost, hgrand⟩

/-!
## C3: coercion of raw stored values
-/

/-- jadd on two numbers. -/
@[simp] theorem jadd_some (a b : ℚ) : jadd (Option.some a) (Option.some b) = Option.some (a + b) := rfl

/-- jsub on two numbers. -/
@[simp] theorem jsub_some (a b : ℚ) : jsub (Option.some a) (Option.some b) = Option.some (a - b) := rfl

/-- jmul on two numbers. -/
@[simp] theorem jmul_some (a b : ℚ) : jmul (Option.some a) (Option.some b) = Option.some (a * b) := rfl

/-- jdivC on a number. -/
@[simp] theorem jdivC_some (a c : ℚ) : jdivC (Option.some a) c = Option.some (a / c) := rfl

/-- A coercing raw value's `Number()` result is its contribution. -/
theorem coerces_toNumber {v : JSVal} (h : JSCoerces v) :
    jsToNumber v = Option.some (toNum v) := by
  unfold JSCoerces at h
  unfold toNum
  cases hv : jsToNumber v with
  | none => simp [hv] at h
  | some q => simp [hv]

/-- NaN-free folds compute the rational fold. -/
theorem foldl_jadd_eq {α : Type} (f : α → Option ℚ) (g : α → ℚ) :
    ∀ (l : List α) (c : ℚ), (∀ x ∈ l, f x = Option.some (g x)) →
      l.foldl (fun acc x => jadd acc (f x)) (Option.some c)
        = Option.some (l.foldl (fun acc x => acc + g x) c) := by
  intro l
  induction l with
  | nil => intro c _; rfl
  | cons x xs ih =>
    intro c h
    have hx := h x (List.mem_cons_self x xs)
    simp only [List.foldl_cons, hx, jadd_some]
    exact ih (c + g x) (fun y hy => h y (List.mem_cons_of_mem x hy))

/-- C3 counterexample: the aggregator is NOT total on degenerate stored
fields.  On a record whose single tile has an `undefined` sqm
(`Number(undefined)` is NaN, and the code has no `|| 0` default), and on
one whose sqm is the non-numeric string "abc", the computed `totalSqm` and
`grandTotal` are NaN — not finite totals with a zero contribution. -/
theorem claim3_counterexample_nan_totals :
    (getSummaryDataJS rawDataUndef refSettings12).totalSqm = Option.none
    ∧ (getSummaryDataJS rawDataUndef refSettings12).grandTotal = Option.none
    ∧ (getSummaryDataJS rawDataBadStr refSettings12).totalSqm = Option.none
    ∧ (getSummaryDataJS rawDataBadStr refSettings12).grandTotal = Option.none := by
  exact ⟨rfl, rfl, rfl, rfl⟩

/-- C3 (amended): the aggregator coerces every raw field through JavaScript
`Number()` with no `|| 0` default: whenever every monetized field coerces
to an actual number (a number, `null` — which contributes 0 — or a
cleanly-parsing numeric string — which contributes its parsed value), the
aggregator returns finite totals equal to running it on the coerced
record; but fields `Number()` sends to NaN (`undefined`, non-numeric
strings) propagate NaN into the totals instead of contributing zero. -/
theorem claim3_amended_number_coercion (d : SummaryInputJS) (s : CalcSettings)
    (ht : ∀ t ∈ d.tiles, JSCoerces t.cartons ∧ JSCoerces t.sqm ∧ JSCoerces t.unitPrice)
    (hm : ∀ m ∈ d.materials, JSCoerces m.quantity ∧ JSCoerces m.unitPrice)
    (hw : JSCoerces d.workmanshipRate) (hmn : JSCoerces d.maintenance)
    (hp : JSCoerces d.profitPercentage) (hd : JSCoerces d.discountValue) :
    getSummaryDataJS d s = someSummary (getSummaryData (coerceInput d) s) := by
  have hsqm : jsTotalSqm d = Option.some (totalSqm (coerceInput d)) := by
    unfold jsTotalSqm totalSqm coerceInput
    simp only [List.foldl_map]
    exact foldl_jadd_eq _ _ d.tiles 0 (fun t htl => by rw [coerces_toNumber (ht t htl).2.1]; rfl)
  have htc : jsTotalTileCost d = Option.some (totalTileCost (coerceInput d)) := by
    unfold jsTotalTileCost totalTileCost coerceInput
    simp only [List.foldl_map]
    exact foldl_jadd_eq _ _ d.tiles 0 (fun t htl => by
      rw [coerces_toNumber (ht t htl).1, coerces_toNumber (ht t htl).2.2]; rfl)
  have hmc : jsTotalMaterialCost d = Option.some (totalMaterialCost (coerceInput d)) := by
    unfold jsTotalMaterialCost totalMaterialCost coerceInput
    simp only [List.foldl_map]
    exact foldl_jadd_eq _ _ d.materials 0 (fun m hml => by
      rw [coerces_toNumber (hm m hml).1, coerces_toNumber (hm m hml).2]; rfl)
  have hwc : jsWorkmanshipCost d = Option.some (workmanshipCost (coerceInput d)) := by
    unfold jsWorkmanshipCost workmanshipCost
    rw [hsqm, coerces_toNumber hw]
    rfl
  have hwm : jsWorkmanshipAndMaintenance d s
      = Option.some (workmanshipAndMaintenance (coerceInput d) s) := by
    unfold jsWorkmanshipAndMaintenance workmanshipAndMaintenance
    rw [hwc]
    cases hb : s.showMaintenance <;> simp [hb, coerces_toNumber hmn, coerceInput]
  have hpre : jsPreProfitTotal d s = Option.some (preProfitTotal (coerceInput d) s) := by
    unfold jsPreProfitTotal preProfitTotal
    rw [htc, hmc, hwm]
    rfl
  have hppc : (coerceInput d).profitPercentage
      = if jsTruthy d.profitPercentage then Option.some (toNum d.profitPercentage)
        else Option.none := rfl
  have hprof : jsProfitAmount d s = Option.some (profitAmount (coerceInput d) s) := by
    unfold jsProfitAmount profitAmount
    cases hT : jsTruthy d.profitPercentage
    · simp only [hppc, hT, Bool.false_eq_true, if_false]
    · by_cases hz : toNum d.profitPercentage = 0
      · simp [hppc, hT, hz, coerces_toNumber hp, hpre]
      · simp only [hppc, hT, if_true]
        rw [hpre, coerces_toNumber hp]
        simp [hz]
  have hsub : jsSubtotal d s = Option.some (subtotal (coerceInput d) s) := by
    unfold jsSubtotal subtotal
    rw [hpre, hprof]
    rfl
  have hdsc : (coerceInput d).discountSpec
      = if d.hasDiscountField then Option.some ⟨d.discountType, toNum d.discountValue⟩
        else Option.none := rfl
  have hdisc : jsDiscountAmount d s = Option.some (discountAmount (coerceInput d) s) := by
    unfold jsDiscountAmount discountAmount
    cases hH : d.hasDiscountField
    · simp [hdsc, hH]
    · cases hdt : d.discountType <;>
        simp [hdsc, hH, hdt, hsub, coerces_toNumber hd]
  have hpost : jsPostDiscountSubtotal d s
      = Option.some (postDiscountSubtotal (coerceInput d) s) := by
    unfold jsPostDiscountSubtotal postDiscountSubtotal
    rw [hsub, hdisc]
    rfl
  have htax : jsTaxAmount d s = Option.some (taxAmount (coerceInput d) s) := by
    unfold jsTaxAmount taxAmount
    cases hb : s.showTax <;> simp [hb, hpost]
  have hgrand : jsGrandTotal d s = Option.some (grandTotal (coerceInput d) s) := by
    unfold jsGrandTotal grandTotal
    rw [hpost, htax]
    rfl
  simp [getSummaryDataJS, someSummary, getSummaryData, hsqm, htc, hmc, hwc, hwm, hprof,
    hsub, hdisc, hpost, htax, hgrand]

/-- C3 amended witness: the mixed record (numeric strings "10", "1700",
"12.5" and "10"; `null` quantity and maintenance) produces exactly the
finite totals of the coerced rational record. -/
theorem claim3_amended_number_coercion_witness :
    getSummaryDataJS rawDataMixed refSettings12
      = someSummary (getSummaryData (coerceInput rawDataMixed) refSettings12) :=
  claim3_amended_number_coercion rawDataMixed refSettings12
    (by decide) (by decide) (by decide) (by decide) (by decide) (by decide)

/-!
## C8: discount monotonicity
-/

/-- Folding `+ f x` from a non-negative seed over non-negative contributions
stays non-negative. -/
theorem foldl_add_nonneg {α : Type} (f : α → ℚ) :
    ∀ (l : List α) (c : ℚ), 0 ≤ c → (∀ x ∈ l, 0 ≤ f x) →
      0 ≤ l.foldl (fun acc x => acc + f x) c := by
  intro l
  induction l with
  | nil => intro c hc _; exact hc
  | cons x xs ih =>
    intro c hc h
    simp only [List.foldl_cons]
    exact ih (c + f x) (add_nonneg hc (h x (List.mem_cons_self x xs)))
      (fun y hy => h y (List.mem_cons_of_mem x hy))

/-- On a record with non-negative fields, the subtotal is non-negative. -/
theorem subtotal_nonneg (data : SummaryInput) (settings : CalcSettings)
    (hn : NonnegInput data) : 0 ≤ subtotal data settings := by
  obtain ⟨htl, hml, hwr, hmn, hpp⟩ := hn
  have hsqm : 0 ≤ totalSqm data := by
    unfold totalSqm
    exact foldl_add_nonneg (fun t => t.sqm) data.tiles 0 le_rfl (fun t htl2 => (htl t htl2).2.1)
  have htc : 0 ≤ totalTileCost data := by
    unfold totalTileCost
    apply foldl_add_nonneg (fun t => t.cartons * t.unitPrice) data.tiles 0 le_rfl
    intro t htl2
    obtain ⟨h1, h2, h3⟩ := htl t htl2
    exact mul_nonneg h1 h3
  have hmc : 0 ≤ totalMaterialCost data := by
    unfold totalMaterialCost
    apply foldl_add_nonneg (fun m => m.quantity * m.unitPrice) data.materials 0 le_rfl
    intro m hml2
    obtain ⟨h1, h2⟩ := hml m hml2
    exact mul_nonneg h1 h2
  have hwc : 0 ≤ workmanshipCost data := mul_nonneg hsqm hwr
  have hwm : 0 ≤ workmanshipAndMaintenance data settings := by
    unfold workmanshipAndMaintenance
    cases hb : settings.showMaintenance <;> simp [hb] <;> linarith
  have hpre : 0 ≤ preProfitTotal data settings := by
    unfold preProfitTotal
    linarith
  have hpf : 0 ≤ profitFactor data.profitPercentage := by
    unfold profitFactor
    rcases hq : data.profitPercentage with _ | p
    · norm_num
    · have := hpp p hq
      by_cases h0 : p = 0 <;> simp [h0] <;> positivity
  rw [subtotal_factor]
  exact mul_nonneg hpre hpf

/-- With a non-negative tax percentage the tax factor is non-negative. -/
theorem taxFactor_nonneg (settings : CalcSettings) (h : 0 ≤ settings.taxPercentage) :
    0 ≤ taxFactor settings := by
  unfold taxFactor
  cases hb : settings.showTax <;> simp [hb] <;> positivity

/-- C8: on a record with non-negative monetary and quantity fields and a
non-negative tax percentage, the grand total is monotonically non-increasing
in `discountValue`, for each discount type (`percentage`, `amount`, and
trivially `none`). -/
theorem claim8_discount_monotone (data : SummaryInput) (settings : CalcSettings)
    (dt : DiscountType) (v1 v2 : ℚ)
    (hn : NonnegInput data) (htax : 0 ≤ settings.taxPercentage) (hv : v1 ≤ v2) :
    grandTotal (setDiscount data dt v2) settings ≤ grandTotal (setDiscount data dt v1) settings := by
  have hsubeq : ∀ v : ℚ, subtotal (setDiscount data dt v) settings = subtotal data settings :=
    fun v => rfl
  have hS : 0 ≤ subtotal data settings := subtotal_nonneg data settings hn
  have hT : 0 ≤ taxFactor settings := taxFactor_nonneg settings htax
  rw [grandTotal_factor, grandTotal_factor, postDiscount_factor, postDiscount_factor,
    hsubeq, hsubeq]
  apply mul_le_mul_of_nonneg_right _ hT
  cases dt
  · simp [setDiscount, discountFactor, discountOffset]
  · simp only [setDiscount, discountFactor, discountOffset]
    have h : subtotal data settings * (v1 / 100) ≤ subtotal data settings * (v2 / 100) :=
      mul_le_mul_of_nonneg_left (by linarith) hS
    nlinarith [h]
  · simp only [setDiscount, discountFactor, discountOffset]
    linarith

/-- C8 witness: on reference scenario 1's record with tax at 7.5%, raising a
percentage discount from 5 to 10 does not raise the grand total. -/
theorem claim8_discount_monotone_witness :
    grandTotal (setDiscount refData1 DiscountType.percentage 10) refSettings3
      ≤ grandTotal (setDiscount refData1 DiscountType.percentage 5) refSettings3 :=
  claim8_discount_monotone refData1 refSettings3 DiscountType.percentage 5 10
    (by refine ⟨?_, ?_, ?_, ?_, ?_⟩ <;>
      norm_num [refData1, refTile] <;> intro h <;> simp_all)
    (by norm_num [refSettings3]) (by norm_num)

/-!
## Lifecycle helper lemmas
-/

/-- Membership after an id-keyed record replacement. -/
theorem mem_handleUpdateQuotation {qs : List QuotationRec} {u q' : QuotationRec}
    (h : q' ∈ handleUpdateQuotation qs u) :
    q' = u ∨ (q' ∈ qs ∧ q'.id ≠ u.id) := by
  unfold handleUpdateQuotation at h
  rcases List.mem_map.mp h with ⟨q, hq, heq⟩
  by_cases hid : q.id = u.id
  · rw [if_pos hid] at heq
    exact Or.inl heq.symm
  · rw [if_neg hid] at heq
    subst heq
    exact Or.inr ⟨hq, hid⟩

/-- In a list with pairwise-distinct ids, members with equal ids are equal. -/
theorem unique_id_eq {l : List QuotationRec}
    (hids : l.Pairwise (fun a b => a.id ≠ b.id)) {a b : QuotationRec}
    (ha : a ∈ l) (hb : b ∈ l) (hid : a.id = b.id) : a = b := by
  induction l with
  | nil => cases ha
  | cons x xs ih =>
    rcases List.pairwise_cons.mp hids with ⟨hx, hxs⟩
    rcases List.mem_cons.mp ha with rfl | ha2
    · rcases List.mem_cons.mp hb with rfl | hb2
      · rfl
      · exact absurd hid (hx b hb2)
    · rcases List.mem_cons.mp hb with rfl | hb2
      · exact absurd hid.symm (hx a ha2)
      · exact ih hxs ha2 hb2

/-- After replacing the record found under `qid` by `u` (with the same id),
the `find?` under `qid` returns `u`. -/
theorem find?_handleUpdateQuotation (qs : List QuotationRec) (qid : Nat)
    (quote u : QuotationRec)
    (hfind : qs.find? (fun q => q.id == qid) = Option.some quote)
    (hu : u.id = quote.id) :
    (handleUpdateQuotation qs u).find? (fun q => q.id == qid) = Option.some u := by
  have hqid : quote.id = qid := by simpa using List.find?_some hfind
  induction qs with
  | nil => simp at hfind
  | cons x xs ih =>
    by_cases hx : (x.id == qid) = true
    · simp only [List.find?, hx] at hfind
      have hxq : x = quote := by injection hfind
      have hxu : x.id = u.id := by rw [hu, hxq]
      have hpu : (u.id == qid) = true := by
        rw [hu, hqid]
        simp
      unfold handleUpdateQuotation
      simp only [List.map_cons, if_pos hxu, List.find?, hpu]
    · simp only [List.find?, hx] at hfind
      have hxu : ¬ x.id = u.id := by
        rw [hu, hqid]
        intro hcontra
        exact hx (by simp [hcontra])
      unfold handleUpdateQuotation
      simp only [List.map_cons, if_neg hxu, List.find?, hx]
      exact ih hfind

/-- Replacing a quotation never touches the invoice collection. -/
theorem handleUpdateTiles_invoices (st : AppState) (qid : Nat) (tiles : List Tile) :
    (handleUpdateTiles st qid tiles).invoices = st.invoices := by
  unfold handleUpdateTiles
  cases h : st.quotations.find? (fun q => q.id == qid) <;> rfl

/-- Appending a material never touches the invoice collection. -/
theorem handleAddMaterial_invoices (st : AppState) (qid : Nat) (m : Material) :
    (handleAddMaterial st qid m).invoices = st.invoices := by
  unfold handleAddMaterial
  cases h : st.quotations.find? (fun q => q.id == qid) <;> rfl

/-- An Accept/Reject click never touches the invoice collection. -/
theorem handleStatusChange_invoices (st : AppState) (qid : Nat) (accept : Bool) :
    (handleStatusChange st qid accept).invoices = st.invoices := by
  unfold handleStatusChange
  cases h : st.quotations.find? (fun q => q.id == qid) with
  | none => rfl
  | some q =>
    by_cases hp : q.status = QStatus.Pending <;> simp [hp]

/-!
## C4: conversion freezes the invoice's line items
-/

/-- C4: converting an Accepted quotation builds an invoice carrying the
quotation's tiles, materials, workmanship rate, maintenance and profit
percentage at conversion time (the first App's handler produces the same
invoice list), and every subsequent quotation edit — tile replacement or
material addition, each of which replaces the quotation record immutably —
leaves the invoice collection, hence every stored line item and every
total computed from it, unchanged. -/
theorem claim4_conversion_freezes_invoice (st : AppState) (qid newId : Nat) (due : Int)
    (quote : QuotationRec)
    (hfind : st.quotations.find? (fun q => q.id == qid) = Option.some quote)
    (hstatus : quote.status = QStatus.Accepted)
    (hinv : quote.invoiceId = Option.none) :
    ((handleConvertToInvoice2 st qid newId due).invoices
        = mkConvertedInvoice quote newId due :: st.invoices)
    ∧ (mkConvertedInvoice quote newId due).tiles = quote.tiles
    ∧ (mkConvertedInvoice quote newId due).materials = quote.materials
    ∧ (mkConvertedInvoice quote newId due).workmanshipRate = quote.workmanshipRate
    ∧ (mkConvertedInvoice quote newId due).maintenance = quote.maintenance
    ∧ (mkConvertedInvoice quote newId due).profitPercentage = quote.profitPercentage
    ∧ (handleConvertToInvoice1 st qid newId due).invoices
        = (handleConvertToInvoice2 st qid newId due).invoices
    ∧ (∀ qid2 tiles2,
        (handleUpdateTiles (handleConvertToInvoice2 st qid newId due) qid2 tiles2).invoices
          = (handleConvertToInvoice2 st qid newId due).invoices)
    ∧ (∀ qid2 m2,
        (handleAddMaterial (handleConvertToInvoice2 st qid newId due) qid2 m2).invoices
          = (handleConvertToInvoice2 st qid newId due).invoices)
    ∧ (∀ qid2 tiles2 s2,
        ((handleUpdateTiles (handleConvertToInvoice2 st qid newId due) qid2 tiles2).invoices.map
            (fun i => (getSummaryData (invoiceSummaryInput i) s2).grandTotal))
          = ((handleConvertToInvoice2 st qid newId due).invoices.map
              (fun i => (getSummaryData (invoiceSummaryInput i) s2).grandTotal))) := by
  have hconv2 : (handleConvertToInvoice2 st qid newId due).invoices
      = mkConvertedInvoice quote newId due :: st.invoices := by
    simp [handleConvertToInvoice2, hfind, hstatus, hinv]
  have hconv1 : (handleConvertToInvoice1 st qid newId due).invoices
      = mkConvertedInvoice quote newId due :: st.invoices := by
    simp [handleConvertToInvoice1, hfind, hinv]
  refine ⟨hconv2, rfl, rfl, rfl, rfl, rfl, hconv1.trans hconv2.symm, ?_, ?_, ?_⟩
  · intro qid2 tiles2
    exact handleUpdateTiles_invoices _ qid2 tiles2
  · intro qid2 m2
    exact handleAddMaterial_invoices _ qid2 m2
  · intro qid2 tiles2 s2
    rw [handleUpdateTiles_invoices]

/-- C4 witness: conversion of the accepted reference quotation in the
two-quotation reference state. -/
theorem claim4_conversion_freezes_invoice_witness :
    ((handleConvertToInvoice2 refState 2 7 0).invoices
        = mkConvertedInvoice refAcceptedQuote 7 0 :: refState.invoices)
    ∧ (mkConvertedInvoice refAcceptedQuote 7 0).tiles = refAcceptedQuote.tiles := by
  have h := claim4_conversion_freezes_invoice refState 2 7 0 refAcceptedQuote rfl rfl rfl
  exact ⟨h.1, h.2.1⟩

/-!
## C5: conversion guards
-/

/-- C5 counterexample: the first App's conversion handler does NOT refuse a
non-Accepted quotation.  In the reference state, quotation 1 is `Pending`
with no invoice link, yet `handleConvertToInvoice1` creates an invoice for
it and marks it `Invoiced`. -/
theorem claim5_counterexample_first_app_converts_pending :
    refPendingQuote.status ≠ QStatus.Accepted
    ∧ refPendingQuote.invoiceId = Option.none
    ∧ refState.quotations.find? (fun q => q.id == 1) = Option.some refPendingQuote
    ∧ (handleConvertToInvoice1 refState 1 7 0).invoices
        = [mkConvertedInvoice refPendingQuote 7 0]
    ∧ (handleConvertToInvoice1 refState 1 7 0).quotations.find? (fun q => q.id == 1)
        = Option.some
            ({ refPendingQuote with status := QStatus.Invoiced, invoiceId := Option.some 7 }) := by
  exact ⟨by decide, rfl, rfl, rfl, rfl⟩

/-- C5 (amended): both conversion handlers refuse when the quotation's
`invoiceId` is already set; the second App's handler additionally refuses
whenever the status is not `Accepted`, while the first App's handler
performs no status check (its convert button is rendered only for Accepted,
un-invoiced quotations); and since a successful conversion by either
handler sets the quotation's `invoiceId`, conversion succeeds at most once
per quotation — every second attempt, through either handler, is refused
and leaves the state unchanged. -/
theorem claim5_amended_conversion_guards (st : AppState) (qid newId : Nat) (due : Int)
    (quote : QuotationRec)
    (hfind : st.quotations.find? (fun q => q.id == qid) = Option.some quote) :
    (quote.invoiceId.isSome = true →
        handleConvertToInvoice1 st qid newId due = st
        ∧ handleConvertToInvoice2 st qid newId due = st)
    ∧ (quote.status ≠ QStatus.Accepted → handleConvertToInvoice2 st qid newId due = st)
    ∧ (quote.invoiceId = Option.none →
        ∀ n2 d2,
          handleConvertToInvoice1 (handleConvertToInvoice1 st qid newId due) qid n2 d2
            = handleConvertToInvoice1 st qid newId due
          ∧ handleConvertToInvoice2 (handleConvertToInvoice1 st qid newId due) qid n2 d2
            = handleConvertToInvoice1 st qid newId due)
    ∧ (quote.invoiceId = Option.none → quote.status = QStatus.Accepted →
        ∀ n2 d2,
          handleConvertToInvoice1 (handleConvertToInvoice2 st qid newId due) qid n2 d2
            = handleConvertToInvoice2 st qid newId due
          ∧ handleConvertToInvoice2 (handleConvertToInvoice2 st qid newId due) qid n2 d2
            = handleConvertToInvoice2 st qid newId due) := by
  refine ⟨?_, ?_, ?_, ?_⟩
  · intro h
    constructor
    · simp [handleConvertToInvoice1, hfind, h]
    · by_cases hs : quote.status = QStatus.Accepted <;>
        simp [handleConvertToInvoice2, hfind, h, hs]
  · intro h
    simp [handleConvertToInvoice2, hfind, h]
  · intro h n2 d2
    have hc1 : handleConvertToInvoice1 st qid newId due
        = { quotations := handleUpdateQuotation st.quotations
              ({ quote with status := QStatus.Invoiced, invoiceId := Option.some newId })
            invoices := mkConvertedInvoice quote newId due :: st.invoices } := by
      simp [handleConvertToInvoice1, hfind, h]
    have hfind2 : (handleUpdateQuotation st.quotations
          ({ quote with status := QStatus.Invoiced, invoiceId := Option.some newId })).find?
          (fun q => q.id == qid)
        = Option.some ({ quote with status := QStatus.Invoiced, invoiceId := Option.some newId }) :=
      find?_handleUpdateQuotation st.quotations qid quote _ hfind rfl
    constructor
    · rw [hc1]
      simp [handleConvertToInvoice1, hfind2]
    · rw [hc1]
      simp [handleConvertToInvoice2, hfind2]
  · intro h hs n2 d2
    have hc2 : handleConvertToInvoice2 st qid newId due
        = { quotations := handleUpdateQuotation st.quotations
              ({ quote with status := QStatus.Invoiced, invoiceId := Option.some newId })
            invoices := mkConvertedInvoice quote newId due :: st.invoices } := by
      simp [handleConvertToInvoice2, hfind, h, hs]
    have hfind2 : (handleUpdateQuotation st.quotations
          ({ quote with status := QStatus.Invoiced, invoiceId := Option.some newId })).find?
          (fun q => q.id == qid)
        = Option.some ({ quote with status := QStatus.Invoiced, invoiceId := Option.some newId }) :=
      find?_handleUpdateQuotation st.quotations qid quote _ hfind rfl
    constructor
    · rw [hc2]
      simp [handleConvertToInvoice1, hfind2]
    · rw [hc2]
      simp [handleConvertToInvoice2, hfind2]

/-- C5 witness: the guards concretely, on the reference accepted quotation:
a second conversion attempt after a successful one is refused by both
handlers. -/
theorem claim5_amended_conversion_guards_witness :
    handleConvertToInvoice1 (handleConvertToInvoice2 refState 2 7 0) 2 8 1
      = handleConvertToInvoice2 refState 2 7 0
    ∧ handleConvertToInvoice2 (handleConvertToInvoice2 refState 2 7 0) 2 8 1
      = handleConvertToInvoice2 refState 2 7 0 :=
  (claim5_amended_conversion_guards refState 2 7 0 refAcceptedQuote rfl).2.2.2 rfl rfl 8 1

/-!
## C9: invoice deletion and the Invoiced state
-/

/-- Replacing a record in an id-unique list cannot move any quotation out
of `Invoiced` unless the replaced record itself leaves it. -/
theorem invoiced_stable_update {qs : List QuotationRec}
    (hids : qs.Pairwise (fun a b => a.id ≠ b.id)) {q0 u : QuotationRec}
    (hq0 : q0 ∈ qs) (huid : u.id = q0.id)
    (hstat : q0.status = QStatus.Invoiced → u.status = QStatus.Invoiced) :
    ∀ q ∈ qs, q.status = QStatus.Invoiced →
      ∀ q' ∈ handleUpdateQuotation qs u, q'.id = q.id → q'.status = QStatus.Invoiced := by
  intro q hq hqInv q' hq' hid
  rcases mem_handleUpdateQuotation hq' with rfl | ⟨hmem, hne⟩
  · have hq0q : q0 = q := unique_id_eq hids hq0 hq (huid ▸ hid)
    have h2 : q0.status = QStatus.Invoiced := by rw [hq0q]; exact hqInv
    exact hstat h2
  · have heq := unique_id_eq hids hmem hq hid
    rw [heq]
    exact hqInv

/-- An unchanged id-unique list trivially preserves `Invoiced`. -/
theorem invoiced_stable_same {qs : List QuotationRec}
    (hids : qs.Pairwise (fun a b => a.id ≠ b.id)) :
    ∀ q ∈ qs, q.status = QStatus.Invoiced →
      ∀ q' ∈ qs, q'.id = q.id → q'.status = QStatus.Invoiced := by
  intro q hq hqInv q' hq' hid
  have heq := unique_id_eq hids hq' hq hid
  rw [heq]
  exact hqInv

/-- C9: deleting an invoice filters it out of the invoice collection and
reverts the quotation it links to (via `quotationId`) to `Accepted` with
its `invoiceId` cleared; and no other user operation — Accept/Reject
(Pending-gated), either conversion handler, tile replacement or material
addition — moves any quotation whose status is `Invoiced` out of that
state (assuming pairwise-distinct quotation ids). -/
theorem claim9_delete_invoice_reverts (st : AppState) (invId : Nat)
    (hids : st.quotations.Pairwise (fun a b => a.id ≠ b.id)) :
    ((handleDeleteInvoice st invId).invoices = st.invoices.filter (fun i => i.id != invId))
    ∧ (∀ inv, st.invoices.find? (fun i => i.id == invId) = Option.some inv →
        ∀ q' ∈ (handleDeleteInvoice st invId).quotations, q'.id = inv.quotationId →
          q'.status = QStatus.Accepted ∧ q'.invoiceId = Option.none)
    ∧ (∀ op : AppOp, (∀ i, op ≠ AppOp.deleteInvoice i) →
        ∀ q ∈ st.quotations, q.status = QStatus.Invoiced →
          ∀ q' ∈ (applyOp op st).quotations, q'.id = q.id →
            q'.status = QStatus.Invoiced) := by
  refine ⟨?_, ?_, ?_⟩
  · unfold handleDeleteInvoice
    cases h1 : st.invoices.find? (fun i => i.id == invId) with
    | none => rfl
    | some inv =>
      cases h2 : st.quotations.find? (fun q => q.id == inv.quotationId) with
      | none => simp only [h2]
      | some lq => simp only [h2]
  · intro inv hfindI q' hq' hid
    unfold handleDeleteInvoice at hq'
    simp only [hfindI] at hq'
    cases h2 : st.quotations.find? (fun q => q.id == inv.quotationId) with
    | none =>
      simp only [h2] at hq'
      have hnone := List.find?_eq_none.mp h2 q' hq'
      exact absurd (by simp [hid]) hnone
    | some lq =>
      simp only [h2] at hq'
      rcases mem_handleUpdateQuotation hq' with rfl | ⟨hmem, hne⟩
      · exact ⟨rfl, rfl⟩
      · have hlq : lq.id = inv.quotationId := by simpa using List.find?_some h2
        exact absurd (hid.trans hlq.symm) hne
  · intro op hop q hq hqInv q' hq' hid
    cases op with
    | statusChange qid accept =>
      simp only [applyOp] at hq'
      unfold handleStatusChange at hq'
      cases h1 : st.quotations.find? (fun q2 => q2.id == qid) with
      | none =>
        simp only [h1] at hq'
        exact invoiced_stable_same hids q hq hqInv q' hq' hid
      | some q0 =>
        simp only [h1] at hq'
        by_cases hp : q0.status = QStatus.Pending
        · rw [if_pos hp] at hq'
          refine @invoiced_stable_update st.quotations hids q0
            ({ q0 with status := if accept then QStatus.Accepted else QStatus.Rejected })
            (List.mem_of_find?_eq_some h1) rfl ?_ q hq hqInv q' hq' hid
          intro hcontra
          rw [hp] at hcontra
          cases hcontra
        · rw [if_neg hp] at hq'
          exact invoiced_stable_same hids q hq hqInv q' hq' hid
    | convertA qid newId due =>
      simp only [applyOp] at hq'
      unfold handleConvertToInvoice1 at hq'
      cases h1 : st.quotations.find? (fun q2 => q2.id == qid) with
      | none =>
        simp only [h1] at hq'
        exact invoiced_stable_same hids q hq hqInv q' hq' hid
      | some q0 =>
        simp only [h1] at hq'
        by_cases hi : q0.invoiceId.isSome = true
        · rw [if_pos hi] at hq'
          exact invoiced_stable_same hids q hq hqInv q' hq' hid
        · rw [if_neg hi] at hq'
          exact @invoiced_stable_update st.quotations hids q0
            ({ q0 with status := QStatus.Invoiced, invoiceId := Option.some newId })
            (List.mem_of_find?_eq_some h1) rfl (fun _ => rfl) q hq hqInv q' hq' hid
    | convertB qid newId due =>
      simp only [applyOp] at hq'
      unfold handleConvertToInvoice2 at hq'
      cases h1 : st.quotations.find? (fun q2 => q2.id == qid) with
      | none =>
        simp only [h1] at hq'
        exact invoiced_stable_same hids q hq hqInv q' hq' hid
      | some q0 =>
        simp only [h1] at hq'
        by_cases hs : q0.status ≠ QStatus.Accepted
        · rw [if_pos hs] at hq'
          exact invoiced_stable_same hids q hq hqInv q' hq' hid
        · rw [if_neg hs] at hq'
          by_cases hi : q0.invoiceId.isSome = true
          · rw [if_pos hi] at hq'
            exact invoiced_stable_same hids q hq hqInv q' hq' hid
          · rw [if_neg hi] at hq'
            exact @invoiced_stable_update st.quotations hids q0
              ({ q0 with status := QStatus.Invoiced, invoiceId := Option.some newId })
              (List.mem_of_find?_eq_some h1) rfl (fun _ => rfl) q hq hqInv q' hq' hid
    | deleteInvoice i => exact absurd rfl (hop i)
    | editTiles qid tiles =>
      simp only [applyOp] at hq'
      unfold handleUpdateTiles at hq'
      cases h1 : st.quotations.find? (fun q2 => q2.id == qid) with
      | none =>
        simp only [h1] at hq'
        exact invoiced_stable_same hids q hq hqInv q' hq' hid
      | some q0 =>
        simp only [h1] at hq'
        exact @invoiced_stable_update st.quotations hids q0
          ({ q0 with tiles := tiles })
          (List.mem_of_find?_eq_some h1) rfl (fun h => h) q hq hqInv q' hq' hid
    | addMaterial qid m =>
      simp only [applyOp] at hq'
      unfold handleAddMaterial at hq'
      cases h1 : st.quotations.find? (fun q2 => q2.id == qid) with
      | none =>
        simp only [h1] at hq'
        exact invoiced_stable_same hids q hq hqInv q' hq' hid
      | some q0 =>
        simp only [h1] at hq'
        exact @invoiced_stable_update st.quotations hids q0
          ({ q0 with materials := q0.materials ++ [m] })
          (List.mem_of_find?_eq_some h1) rfl (fun h => h) q hq hqInv q' hq' hid

/-- C9 witness: deleting invoice 7 in the invoiced reference state removes
it and reverts quotation 3 to Accepted with its link cleared. -/
theorem claim9_delete_invoice_reverts_witness :
    ((handleDeleteInvoice refStateInvoiced 7).invoices
        = refStateInvoiced.invoices.filter (fun i => i.id != 7))
    ∧ (∀ q' ∈ (handleDeleteInvoice refStateInvoiced 7).quotations, q'.id = 3 →
        q'.status = QStatus.Accepted ∧ q'.invoiceId = Option.none) := by
  have h := claim9_delete_invoice_reverts refStateInvoiced 7
    (by simp [refStateInvoiced, refInvoicedQuote, refAcceptedQuote, refPendingQuote])
  exact ⟨h.1, h.2.1 refLinkedInvoice rfl⟩

/-!
## C10: derived Overdue display status
-/

/-- C10: in the invoice list, an invoice stored `Unpaid` whose due date is
strictly before the current time is presented as `Overdue`; every other
invoice keeps its stored status; every other field of the displayed record
equals the stored one, and the stored collection itself is left intact (the
derivation builds fresh records of the same length, one per stored
invoice). -/
theorem claim10_overdue_display_status (invoices : List InvoiceRec) (now : Int) :
    ((processedInvoices invoices now).length = invoices.length)
    ∧ ∀ (i : Nat) (inv : InvoiceRec), invoices[i]? = Option.some inv →
        ∃ inv', (processedInvoices invoices now)[i]? = Option.some inv'
          ∧ inv'.id = inv.id
          ∧ inv'.quotationId = inv.quotationId
          ∧ inv'.dueDate = inv.dueDate
          ∧ inv'.tiles = inv.tiles
          ∧ inv'.materials = inv.materials
          ∧ inv'.workmanshipRate = inv.workmanshipRate
          ∧ inv'.maintenance = inv.maintenance
          ∧ inv'.profitPercentage = inv.profitPercentage
          ∧ inv'.discountType = inv.discountType
          ∧ inv'.discountValue = inv.discountValue
          ∧ (inv.status = InvStatus.Unpaid → inv.dueDate < now →
              inv'.status = InvStatus.Overdue)
          ∧ (inv.status = InvStatus.Unpaid → ¬ inv.dueDate < now →
              inv'.status = inv.status)
          ∧ (inv.status ≠ InvStatus.Unpaid → inv'.status = inv.status) := by
  constructor
  · simp [processedInvoices]
  · intro i inv hi
    refine ⟨{ inv with status :=
        if inv.status = InvStatus.Unpaid ∧ inv.dueDate < now then InvStatus.Overdue
        else inv.status }, ?_, rfl, rfl, rfl, rfl, rfl, rfl, rfl, rfl, rfl, rfl, ?_, ?_, ?_⟩
    · simp [processedInvoices, hi]
    · intro h1 h2
      simp [h1, h2]
    · intro h1 h2
      simp [h1, h2]
    · intro h1
      simp [h1]

/-- C10 witness: the reference unpaid invoice due at 0, viewed at time 5,
is displayed Overdue. -/
theorem claim10_overdue_display_status_witness :
    ∃ inv', (processedInvoices [refOverdueInvoice] 5)[0]? = Option.some inv'
      ∧ inv'.status = InvStatus.Overdue := by
  obtain ⟨inv', h1, _, _, _, _, _, _, _, _, _, _, hOver, _, _⟩ :=
    (claim10_overdue_display_status [refOverdueInvoice] 5).2 0 refOverdueInvoice rfl
  exact ⟨inv', h1, hOver rfl (by decide)⟩

end TilingApp
